import Mathlib

/-!
Shallow embedding of the py_lab asynchronous job/result subsystem,
translated from the repository sources src/py_lab/api.py,
src/py_lab/signing.py, src/py_lab/storage.py, src/py_lab/model_store.py
and src/py_lab/anomaly.py: the status store and its state machine, signed
download URLs, streaming upload ingestion, the isolation-forest model
cache, anomaly top-k ranking, and background job execution.

Machine integers are modelled as Int or Nat (Python integers are
unbounded, so no overflow arithmetic is needed); fallible code returns
Except; the filesystem and clock are passed explicitly.
-/

namespace PyLab

/-- JSON-like values, for the small status documents written by
write_status in api.py: strings, null, numbers, and nested objects
(the timing_ms dictionary). -/
inductive JVal where
  | s (v : String)
  | num (v : Rat)
  | null
  | obj (fields : List (String × JVal))

/-- A Python exception as far as this embedding needs it: the class name
and the message. run_analyze_job formats a caught exception e as the
string type(e).__name__ followed by a colon, a space, and e. -/
structure Exc where
  cls : String
  msg : String
deriving Repr, DecidableEq

/-- Errors raised by the embedded api.py code paths: TypeError (what
Python raises for the statement raise None, and what hmac.compare_digest
raises when given a non-ASCII str) and fastapi HTTPException carrying a
status code and a detail string. -/
inductive PyErr where
  | typeError (msg : String)
  | http (code : Nat) (detail : String)
deriving Repr, DecidableEq

/-- One persisted status document: the JSON object that api.py stores at
results/<request_id>/status.json, as an ordered list of key-value pairs
(Python dicts preserve insertion order). -/
abbrev StatusRecord := List (String × JVal)

/-- The on-disk status store, mapping request id to its stored document.
A write overwrites the whole file for that id; modelled by prepending,
with lookup returning the newest record. -/
abbrev StatusStore := List (String × StatusRecord)

/-- api.py write_status: re-serializes the payload dict merged (in order)
with request_id and a fresh updated_at stamp, and overwrites the status
file for request_id. The current timestamp is the opaque string now_iso. -/
def write_status (now_iso : String) (request_id : String)
    (payload : List (String × JVal)) (store : StatusStore) : StatusStore :=
  (request_id,
    payload ++ [("request_id", JVal.s request_id), ("updated_at", JVal.s now_iso)]) :: store

/-- api.py read_status (lines 69 to 73): when the status file does not
exist, the source executes the statement raise None, which in Python
raises TypeError (exceptions must derive from BaseException); when the
file exists it returns the parsed JSON document, which is never None. -/
def read_status (store : StatusStore) (request_id : String) :
    Except PyErr (Option StatusRecord) :=
  match store.lookup request_id with
  | none => .error (.typeError "exceptions must derive from BaseException")
  | some r => .ok (some r)

/-- api.py get_status (lines 107 to 111): calls read_status, raises
HTTP 404 Status not found when the result is None, and otherwise returns
the record. Any exception raised by read_status propagates unhandled. -/
def get_status (store : StatusStore) (request_id : String) :
    Except PyErr StatusRecord :=
  match read_status store request_id with
  | .error e => .error e
  | .ok none => .error (.http 404 "Status not found")
  | .ok (some r) => .ok r

/-- Claim C1, divergence shown at a concrete input: on a store with no
record for the queried id, get_status fails with the TypeError produced
by the raise None statement in read_status, not with the 404 Not Found
outcome (the branch of get_status that would raise 404 is unreachable,
since read_status never returns an ok None). -/
theorem get_status_unknown_id_raises_type_error :
    get_status [] "abc"
      = Except.error (PyErr.typeError "exceptions must derive from BaseException") := by
  rfl

/-- Python str.isascii, and also the ASCII test CPython applies to str
arguments of hmac.compare_digest: every code point is below 128. -/
def pyIsAscii (s : String) : Bool :=
  s.data.all (fun c => c.toNat < 128)

/-- hmac.compare_digest restricted to str arguments, as wrapped by
signing.py constant_time_eq. CPython (Modules/_operator.c, _tscmp)
accepts only ASCII str operands, raising TypeError otherwise (the hmac
documentation admits str ASCII only, as e.g. returned by hexdigest);
for ASCII operands it returns whether the strings are equal, scanning in
constant time. The timing aspect is not modelled, only the boolean
result and the TypeError. -/
def compare_digest (a b : String) : Except PyErr Bool :=
  if pyIsAscii a && pyIsAscii b then .ok (a == b)
  else .error (.typeError "comparing strings with non-ASCII characters is not supported")

/-- signing.py constant_time_eq: a direct wrapper of hmac.compare_digest
on two str values. -/
def constant_time_eq (a b : String) : Except PyErr Bool :=
  compare_digest a b

/-- The subset of settings.py Settings that the embedded api.py code
reads: the signing key (empty string when unset, which Python treats as
falsy), the public base URL (empty when unset) and the signed URL TTL in
seconds. -/
structure Settings where
  download_signing_key : String
  base_url : String
  download_url_ttl_seconds : Int
deriving Repr, DecidableEq

/-- api.py absolute_url: prefixes the path with the configured base URL,
stripped of trailing slashes, when one is configured. -/
def absolute_url (st : Settings) (path : String) : String :=
  if st.base_url = "" then path
  else st.base_url.dropRightWhile (· == '/') ++ path

/-- api.py _required_valid_signature (lines 80 to 91). The HMAC
computation sign (signing.py sign, HMAC-SHA256 hexdigest over UTF-8
bytes, deterministic and pure) is passed as an opaque function
parameter, and now is int(time.time()). -/
def required_valid_signature (sign : String → String → String) (st : Settings)
    (now : Int) (request_id filename : String) (exp : Int) (signature : String) :
    Except PyErr Unit :=
  if st.download_signing_key = "" then .ok ()
  else if exp < now then .error (.http 403 "URL has expired")
  else
    let message := request_id ++ ":" ++ filename ++ ":" ++ toString exp
    let expected := sign st.download_signing_key message
    match constant_time_eq expected signature with
    | .error e => .error e
    | .ok b => if b then .ok () else .error (.http 403 "Invalid signature")

/-- The expiry and hex signature that api.py make_download_url embeds in
a signed URL (lines 94 and 99 to 100): exp is issue time plus the
configured TTL, and sig signs the canonical message built from
request id, filename and exp joined by colons. -/
def make_download_params (sign : String → String → String) (st : Settings)
    (now : Int) (req_id filename : String) : Int × String :=
  let exp := now + st.download_url_ttl_seconds
  (exp, sign st.download_signing_key (req_id ++ ":" ++ filename ++ ":" ++ toString exp))

/-- api.py make_download_url (lines 93 to 101): in unsigned mode (empty
signing key) a static results path; otherwise a download path carrying
exp and sig as query parameters. -/
def make_download_url (sign : String → String → String) (st : Settings)
    (now : Int) (req_id filename : String) : String :=
  if st.download_signing_key = "" then
    absolute_url st ("/results/" ++ req_id ++ "/" ++ filename)
  else
    let p := make_download_params sign st now req_id filename
    absolute_url st ("/download/" ++ req_id ++ "/" ++ filename
      ++ "?exp=" ++ toString p.1 ++ "&sig=" ++ p.2)

/-- Claim C5, counterexample: with a signing secret configured and exp
not in the past, a syntactically non-ASCII sig makes verification fail
with the TypeError raised by hmac.compare_digest, not with the 403
Invalid signature outcome the claim requires for every mismatched sig. -/
theorem check_url_non_ascii_sig_raises_type_error :
    required_valid_signature (fun _ _ => "0a") ⟨"key", "", 3600⟩ 100 "r" "f" 100 "é"
      = Except.error (PyErr.typeError "comparing strings with non-ASCII characters is not supported") := by
  rfl

/-- Claim C5 as amended: with a signing secret configured, verification
fails with Expired whenever exp < now, regardless of the presented
signature; when exp is not in the past and both the recomputed digest
and the presented sig are ASCII strings, it fails with InvalidSignature
whenever the recomputed signature differs from sig (for a non-ASCII
operand hmac.compare_digest raises TypeError instead, see the
counterexample); and with no signing secret configured it succeeds for
every input. -/
theorem check_url_outcomes (sign : String → String → String) (st : Settings)
    (now : Int) (request_id filename : String) (exp : Int) (sig : String) :
    (st.download_signing_key = "" →
      required_valid_signature sign st now request_id filename exp sig = .ok ())
    ∧ (st.download_signing_key ≠ "" → exp < now →
      required_valid_signature sign st now request_id filename exp sig
        = .error (.http 403 "URL has expired"))
    ∧ (st.download_signing_key ≠ "" → ¬ exp < now →
      pyIsAscii (sign st.download_signing_key
        (request_id ++ ":" ++ filename ++ ":" ++ toString exp)) = true →
      pyIsAscii sig = true →
      sign st.download_signing_key (request_id ++ ":" ++ filename ++ ":" ++ toString exp) ≠ sig →
      required_valid_signature sign st now request_id filename exp sig
        = .error (.http 403 "Invalid signature")) := by
  refine ⟨fun hk => ?_, fun hk hexp => ?_, fun hk hexp ha hb hne => ?_⟩
  · simp [required_valid_signature, hk]
  · simp [required_valid_signature, hk, hexp]
  · simp [required_valid_signature, hk, hexp, constant_time_eq, compare_digest, ha, hb, hne]

/-- Concrete instantiation of every case of the C5 theorem: an empty key
accepts, a configured key rejects a stale exp as expired, and a
configured key rejects a mismatched ASCII sig as an invalid signature. -/
theorem check_url_outcomes_witness :
    required_valid_signature (fun _ _ => "aa") ⟨"", "", 10⟩ 5 "r" "f" 3 "zz" = .ok ()
    ∧ required_valid_signature (fun _ _ => "aa") ⟨"k", "", 10⟩ 5 "r" "f" 3 "zz"
        = .error (.http 403 "URL has expired")
    ∧ required_valid_signature (fun _ _ => "aa") ⟨"k", "", 10⟩ 5 "r" "f" 7 "zz"
        = .error (.http 403 "Invalid signature") :=
  ⟨(check_url_outcomes (fun _ _ => "aa") ⟨"", "", 10⟩ 5 "r" "f" 3 "zz").1 rfl,
   (check_url_outcomes (fun _ _ => "aa") ⟨"k", "", 10⟩ 5 "r" "f" 3 "zz").2.1
     (by decide) (by decide),
   (check_url_outcomes (fun _ _ => "aa") ⟨"k", "", 10⟩ 5 "r" "f" 7 "zz").2.2
     (by decide) (by decide) (by decide) (by decide) (by decide)⟩

/-- Claim C6: round trip. With a signing secret configured and the HMAC
digest ASCII (hexdigest output always is), the exp and sig that
make_download_url embeds in an issued URL verify successfully under
_required_valid_signature at any time now2 at or before exp: issuer and
verifier build the identical canonical message with the same field order
and colon separator, and sign, being a function of its arguments, is
deterministic. -/
theorem issued_url_verifies (sign : String → String → String) (st : Settings)
    (now now2 : Int) (req_id filename : String)
    (hkey : st.download_signing_key ≠ "")
    (hascii : pyIsAscii ((make_download_params sign st now req_id filename).2) = true)
    (hnow : now2 ≤ (make_download_params sign st now req_id filename).1) :
    required_valid_signature sign st now2 req_id filename
      (make_download_params sign st now req_id filename).1
      (make_download_params sign st now req_id filename).2 = .ok ()
    ∧ make_download_url sign st now req_id filename
      = absolute_url st ("/download/" ++ req_id ++ "/" ++ filename
          ++ "?exp=" ++ toString (make_download_params sign st now req_id filename).1
          ++ "&sig=" ++ (make_download_params sign st now req_id filename).2) := by
  constructor
  · have hlt : ¬ (make_download_params sign st now req_id filename).1 < now2 := not_lt.mpr hnow
    simp only [required_valid_signature, make_download_params, constant_time_eq,
      compare_digest] at hascii hlt ⊢
    simp [hkey, hlt, hascii]
  · simp [make_download_url, hkey]

/-- Concrete instantiation of the C6 round trip: a URL issued at time 0
with TTL 3600 verifies at time 100. -/
theorem issued_url_verifies_witness :
    required_valid_signature (fun _ _ => "aa") ⟨"k", "", 3600⟩ 100 "r" "f"
      (make_download_params (fun _ _ => "aa") ⟨"k", "", 3600⟩ 0 "r" "f").1
      (make_download_params (fun _ _ => "aa") ⟨"k", "", 3600⟩ 0 "r" "f").2 = .ok ()
    ∧ make_download_url (fun _ _ => "aa") ⟨"k", "", 3600⟩ 0 "r" "f"
      = absolute_url ⟨"k", "", 3600⟩ ("/download/" ++ "r" ++ "/" ++ "f"
          ++ "?exp=" ++ toString (make_download_params (fun _ _ => "aa") ⟨"k", "", 3600⟩ 0 "r" "f").1
          ++ "&sig=" ++ (make_download_params (fun _ _ => "aa") ⟨"k", "", 3600⟩ 0 "r" "f").2) :=
  issued_url_verifies (fun _ _ => "aa") ⟨"k", "", 3600⟩ 0 100 "r" "f"
    (by decide) (by decide) (by decide)

/-- One read from the upload stream in storage.py
save_upload_file_streaming: a chunk of n bytes (n = 0 is the empty read
signalling end of stream, Python breaks the loop on a falsy chunk), or
an I/O failure raised during reading. Chunk contents are irrelevant to
the claims, so only byte counts are modelled. -/
inductive StreamEvent where
  | chunk (n : Nat)
  | ioError (e : Exc)
deriving Repr, DecidableEq

/-- Errors escaping save_upload_file_streaming: the ValueError raised
when the running byte count exceeds max_bytes, or a re-raised stream
error. -/
inductive UploadErr where
  | sizeExceeded (max_bytes : Nat)
  | raised (e : Exc)
deriving Repr, DecidableEq

/-- The read/write loop of storage.py save_upload_file_streaming
(lines 62 to 82): written is the running byte count and file the byte
size of the destination file (opened in wb mode, so it starts at 0).
Returns the destination file state (none once the except block has
removed it), the result (the final byte count, or the propagated error)
and the unread remainder of the stream. The source checks the limit
after adding the chunk length and before writing the chunk, and cleans
up on every exception; os.remove is modelled as succeeding (the source
additionally swallows removal errors). -/
def streamLoop (max_bytes : Nat) :
    List StreamEvent → Nat → Nat → Option Nat × Except UploadErr Nat × List StreamEvent
  | [], written, file => (some file, .ok written, [])
  | .chunk 0 :: rest, written, file => (some file, .ok written, rest)
  | .chunk (n + 1) :: rest, written, file =>
      if max_bytes < written + (n + 1) then (none, .error (.sizeExceeded max_bytes), rest)
      else streamLoop max_bytes rest (written + (n + 1)) (file + (n + 1))
  | .ioError e :: rest, _written, _file => (none, .error (.raised e), rest)

/-- storage.py save_upload_file_streaming, from the opened destination
file onward: runs the chunk loop with zero bytes written on an empty
destination file. -/
def save_upload_file_streaming (src : List StreamEvent) (max_bytes : Nat) :
    Option Nat × Except UploadErr Nat × List StreamEvent :=
  streamLoop max_bytes src 0 0

/-- Total bytes carried by the chunk events of a stream prefix. -/
def chunkSum : List StreamEvent → Nat
  | [] => 0
  | .chunk n :: rest => n + chunkSum rest
  | .ioError _ :: rest => chunkSum rest

theorem streamLoop_error_removes_file (max_bytes : Nat) (src : List StreamEvent) :
    ∀ written file e, (streamLoop max_bytes src written file).2.1 = .error e →
      (streamLoop max_bytes src written file).1 = none := by
  induction src with
  | nil => intro w f e h; simp [streamLoop] at h
  | cons ev rest ih =>
    intro w f e h
    match ev with
    | .chunk 0 => simp [streamLoop] at h
    | .chunk (n + 1) =>
      rw [streamLoop] at h ⊢
      by_cases hc : max_bytes < w + (n + 1)
      · simp [hc]
      · simp only [if_neg hc] at h ⊢
        exact ih _ _ _ h
    | .ioError e2 => simp [streamLoop]

theorem streamLoop_consumes_clean_lead (max_bytes : Nat) (pre : List StreamEvent)
    (hpos : ∀ ev ∈ pre, ∃ m, ev = .chunk (m + 1)) :
    ∀ rest written file, written + chunkSum pre ≤ max_bytes →
      streamLoop max_bytes (pre ++ rest) written file
        = streamLoop max_bytes rest (written + chunkSum pre) (file + chunkSum pre) := by
  induction pre with
  | nil => intro rest w f _; simp [chunkSum]
  | cons ev pre2 ih =>
    intro rest w f hle
    obtain ⟨m, rfl⟩ := hpos (ev) (List.mem_cons_self ev pre2)
    have hsum : chunkSum (StreamEvent.chunk (m + 1) :: pre2) = (m + 1) + chunkSum pre2 := rfl
    rw [hsum] at hle
    have hnot : ¬ max_bytes < w + (m + 1) := by omega
    rw [List.cons_append, streamLoop, if_neg hnot]
    rw [ih (fun ev2 hev2 => hpos ev2 (List.mem_cons_of_mem _ hev2)) rest _ _ (by omega)]
    have h1 : w + (m + 1) + chunkSum pre2 = w + chunkSum (StreamEvent.chunk (m + 1) :: pre2) := by
      rw [hsum]; omega
    have h2 : f + (m + 1) + chunkSum pre2 = f + chunkSum (StreamEvent.chunk (m + 1) :: pre2) := by
      rw [hsum]; omega
    rw [h1, h2]

/-- Claim C3: for every source stream and byte limit, (1) whenever
ingestion fails, no file remains at the destination path, and (2) the
oversize abort happens as soon as the accumulated byte count exceeds
max_bytes: if the stream starts with nonempty chunks totalling at most
max_bytes and then a chunk pushes the total beyond max_bytes, ingestion
fails with the size ValueError at that chunk, the rest of the stream is
never read, and the destination file has been deleted. -/
theorem streaming_failure_removes_incomplete_file (src : List StreamEvent) (max_bytes : Nat) :
    (∀ e, (save_upload_file_streaming src max_bytes).2.1 = .error e →
      (save_upload_file_streaming src max_bytes).1 = none)
    ∧ (∀ pre n post, src = pre ++ .chunk n :: post →
        (∀ ev ∈ pre, ∃ m, ev = .chunk (m + 1)) →
        chunkSum pre ≤ max_bytes → max_bytes < chunkSum pre + n →
        save_upload_file_streaming src max_bytes
          = (none, .error (.sizeExceeded max_bytes), post)) := by
  constructor
  · intro e h
    exact streamLoop_error_removes_file max_bytes src 0 0 e h
  · intro pre n post hsrc hpos hle hgt
    subst hsrc
    unfold save_upload_file_streaming
    rw [streamLoop_consumes_clean_lead max_bytes pre hpos _ 0 0 (by omega)]
    obtain ⟨m, rfl⟩ : ∃ m, n = m + 1 := ⟨n - 1, by omega⟩
    rw [streamLoop, if_pos (by omega)]

/-- Concrete instantiation of the C3 theorem: a 5-byte limit stream of
chunks 3 and 4 aborts at the second chunk with the remaining stream
unread and no destination file, and a read error also leaves no
destination file. -/
theorem streaming_failure_witness :
    save_upload_file_streaming [.chunk 3, .chunk 4, .chunk 9] 5
      = (none, .error (.sizeExceeded 5), [.chunk 9])
    ∧ (save_upload_file_streaming [.ioError ⟨"OSError", "boom"⟩] 5).1 = none :=
  ⟨(streaming_failure_removes_incomplete_file [.chunk 3, .chunk 4, .chunk 9] 5).2
      [.chunk 3] 4 [.chunk 9] rfl
      (by intro ev hev; rw [List.mem_singleton] at hev; exact ⟨2, by rw [hev]⟩)
      (by decide) (by decide),
   (streaming_failure_removes_incomplete_file [.ioError ⟨"OSError", "boom"⟩] 5).1
      (.raised ⟨"OSError", "boom"⟩) rfl⟩

/-- model_store.py IsolationForestBundle: an opaque trained estimator
(the type parameter M) plus the ordered feature column list it was
trained on. -/
structure IsolationForestBundle (M : Type) where
  model : M
  feature_columns : List String
deriving Repr, DecidableEq

/-- The dictionary that joblib.load deserializes from disk inside
load_iforest: the estimator under the key model and the feature list
under the key features. -/
structure LoadedObj (M : Type) where
  model : M
  features : List String
deriving Repr, DecidableEq

/-- model_store.py load_iforest (lines 18 to 30): returns the cached
bundle when present; otherwise deserializes from path (joblib.load is
the parameter disk; its failures propagate unwrapped and unhandled),
builds the bundle, populates the cache and returns it. The module-level
_cache global is threaded explicitly: the function returns the result
paired with the new value of the cache slot. -/
def load_iforest {M : Type} (disk : String → Except Exc (LoadedObj M)) (path : String)
    (cache : Option (IsolationForestBundle M)) :
    Except Exc (IsolationForestBundle M) × Option (IsolationForestBundle M) :=
  match cache with
  | some b => (.ok b, some b)
  | none =>
    match disk path with
    | .error e => (.error e, none)
    | .ok obj => (.ok ⟨obj.model, obj.features⟩, some ⟨obj.model, obj.features⟩)

/-- model_store.py reload_iforest (lines 32 to 35): sets _cache to None
and then performs load_iforest. -/
def reload_iforest {M : Type} (disk : String → Except Exc (LoadedObj M)) (path : String)
    (_cache : Option (IsolationForestBundle M)) :
    Except Exc (IsolationForestBundle M) × Option (IsolationForestBundle M) :=
  load_iforest disk path none

/-- Claim C9: for every path and prior cache, reload_iforest first
empties the cache slot and then attempts a load (its behavior is that of
load_iforest on an empty cache, independent of the previous bundle), and
when the load fails the error propagates and the cache slot remains
empty rather than being rolled back: a subsequent load starts from an
empty slot and must go back to disk. -/
theorem reload_empties_cache_and_failure_stays_empty {M : Type}
    (disk : String → Except Exc (LoadedObj M)) (path : String)
    (cache : Option (IsolationForestBundle M)) :
    reload_iforest disk path cache = load_iforest disk path none
    ∧ (∀ e, (reload_iforest disk path cache).1 = .error e →
        (reload_iforest disk path cache).2 = none
        ∧ (∀ disk2 path2, load_iforest disk2 path2 (reload_iforest disk path cache).2
            = load_iforest disk2 path2 none)) := by
  refine ⟨rfl, fun e h => ?_⟩
  unfold reload_iforest load_iforest at h ⊢
  cases hd : disk path with
  | error e2 => simp [hd]
  | ok obj => rw [hd] at h; simp at h

/-- Concrete instantiation of the C9 theorem: a failing disk read during
reload propagates the error and leaves the cache slot empty even though
a bundle was cached before the reload. -/
theorem reload_failure_witness :
    reload_iforest (fun _ => .error ⟨"FileNotFoundError", "missing"⟩) "models/iforest.pkl"
        (some (⟨(), ["age"]⟩ : IsolationForestBundle Unit))
      = (.error ⟨"FileNotFoundError", "missing"⟩, none)
    ∧ (reload_iforest (fun _ => .error ⟨"FileNotFoundError", "missing"⟩) "models/iforest.pkl"
        (some (⟨(), ["age"]⟩ : IsolationForestBundle Unit))).2 = none :=
  ⟨rfl,
   ((reload_empties_cache_and_failure_stays_empty
      (fun _ => .error ⟨"FileNotFoundError", "missing"⟩) "models/iforest.pkl"
      (some (⟨(), ["age"]⟩ : IsolationForestBundle Unit))).2
      ⟨"FileNotFoundError", "missing"⟩ rfl).1⟩

/-- One pandas DataFrame column as far as anomaly.py consumes it: its
name, whether its dtype is numeric (select_dtypes with include number
keeps exactly the numeric-dtype columns), and its cell values. Values of
non-numeric columns never influence any embedded computation (they are
dropped before scoring), so cells are modelled as rationals. -/
structure Column where
  name : String
  numeric : Bool
  values : List Rat
deriving Repr, DecidableEq

/-- A pandas DataFrame as anomaly.py consumes it: the row index
(df.index: integer row labels, not necessarily contiguous) and the
columns. The row count, shape[0], is the index length. -/
structure Table where
  index : List Int
  cols : List Column
deriving Repr, DecidableEq

/-- anomaly.py _select_numeric_features: keeps the numeric-dtype columns
and all rows. -/
def select_numeric_features (df : Table) : Table :=
  { index := df.index, cols := df.cols.filter (fun c => c.numeric) }

/-- anomaly.py AnomalyResult: parallel lists of top-k row indices and
their anomaly scores. -/
structure AnomalyResult where
  indices : List Int
  scores : List Rat
deriving Repr, DecidableEq

/-- The descending comparison that pandas sort_values with ascending
false applies to the scored series: a may precede b when the score of b
is at most the score of a. -/
def byScoreDesc (a b : Int × Rat) : Prop := b.2 ≤ a.2

instance : DecidableRel byScoreDesc :=
  fun a b => inferInstanceAs (Decidable (b.2 ≤ a.2))

instance : IsTotal (Int × Rat) byScoreDesc :=
  ⟨fun a b => le_total b.2 a.2⟩

instance : IsTrans (Int × Rat) byScoreDesc :=
  ⟨fun _ _ _ h1 h2 => le_trans h2 h1⟩

/-- anomaly.py detect_anomalies (lines 22 to 49). The IsolationForest
collaborator is the opaque parameter score_samples: contamination,
random_state, the fitted table X and a row position yield the models
normality score, one score per row of X per the sklearn contract; the
source negates it so that larger means more anomalous, fits and scores
on the same table, and clamps top_k to between 1 and the row count. The
descending sort of the scored series (pandas sort_values with
ascending false and the default quicksort kind) is modelled as an
insertion sort by score descending; numpy does not guarantee stability
for quicksort, so the tie order fixed here is a modelling choice and no
theorem below depends on it. -/
def detect_anomalies (score_samples : Rat → Int → Table → Nat → Rat) (df : Table)
    (top_k : Int) (contamination : Rat) (random_state : Int) : Option AnomalyResult :=
  let X := select_numeric_features df
  if X.cols.length = 0 ∨ X.index.length < 5 then none
  else
    let scores := (List.range X.index.length).map
      (fun i => - score_samples contamination random_state X i)
    let k := max 1 (min top_k (scores.length : Int))
    let sorted := List.insertionSort byScoreDesc (df.index.zip scores)
    let top := sorted.take k.toNat
    some ⟨top.map Prod.fst, top.map Prod.snd⟩

/-- Claim C7: a table with zero numeric columns or fewer than five rows
makes detect_anomalies return None, whatever the model, top_k,
contamination and random_state are. -/
theorem score_insufficient_data_returns_none
    (score_samples : Rat → Int → Table → Nat → Rat) (df : Table)
    (top_k : Int) (contamination : Rat) (random_state : Int)
    (h : (select_numeric_features df).cols.length = 0 ∨ df.index.length < 5) :
    detect_anomalies score_samples df top_k contamination random_state = none := by
  have h2 : (select_numeric_features df).cols.length = 0
      ∨ (select_numeric_features df).index.length < 5 := h
  simp only [detect_anomalies, if_pos h2]

/-- Concrete instantiation of the C7 theorem: a three-row table with one
numeric column is rejected. -/
theorem score_insufficient_data_witness :
    detect_anomalies (fun _ _ _ i => (i : Rat))
      ⟨[0, 1, 2], [⟨"age", true, [30, 31, 29]⟩]⟩ 5 (1 / 20) 42 = none :=
  score_insufficient_data_returns_none (fun _ _ _ i => (i : Rat))
    ⟨[0, 1, 2], [⟨"age", true, [30, 31, 29]⟩]⟩ 5 (1 / 20) 42 (Or.inr (by decide))

/-- Claim C8: on a table with at least five rows and at least one
numeric column and a requested top_k of at least one, detect_anomalies
returns a result whose indices and scores have equal length, that common
length is the row count clamp min(top_k, rows) and hence at most top_k,
and every returned index is a row index of the input table. -/
theorem score_result_lengths_and_indices
    (score_samples : Rat → Int → Table → Nat → Rat) (df : Table)
    (top_k : Int) (contamination : Rat) (random_state : Int)
    (hrows : 5 ≤ df.index.length)
    (hcols : 1 ≤ (select_numeric_features df).cols.length)
    (hk : 1 ≤ top_k) :
    ∃ r, detect_anomalies score_samples df top_k contamination random_state = some r
      ∧ r.indices.length = r.scores.length
      ∧ (r.indices.length : Int) = min top_k (df.index.length : Int)
      ∧ (r.indices.length : Int) ≤ top_k
      ∧ ∀ i ∈ r.indices, i ∈ df.index := by
  have hguard : ¬ ((select_numeric_features df).cols.length = 0
      ∨ (select_numeric_features df).index.length < 5) := by
    rw [not_or]
    exact ⟨by omega, by simpa [select_numeric_features] using by omega⟩
  rw [detect_anomalies, if_neg hguard]
  set n := df.index.length with hn
  have hXn : (select_numeric_features df).index.length = n := rfl
  set scores := (List.range (select_numeric_features df).index.length).map
    (fun i => - score_samples contamination random_state (select_numeric_features df) i)
    with hscores
  have hslen : scores.length = n := by
    rw [hscores, List.length_map, List.length_range, hXn]
  set k := max 1 (min top_k (scores.length : Int)) with hkdef
  set sorted := List.insertionSort byScoreDesc (df.index.zip scores)
    with hsorted
  have hsortedlen : sorted.length = n := by
    rw [hsorted, List.length_insertionSort, List.length_zip, hslen]
    omega
  have hkval : k = min top_k (n : Int) := by
    rw [hkdef, hslen]
    omega
  have htoplen : (sorted.take k.toNat).length = k.toNat := by
    rw [List.length_take, hsortedlen]
    omega
  refine ⟨_, rfl, ?_, ?_, ?_, ?_⟩
  · simp
  · simp only [List.length_map, htoplen]
    omega
  · simp only [List.length_map, htoplen]
    omega
  · intro i hi
    simp only [List.mem_map] at hi
    obtain ⟨p, hp, rfl⟩ := hi
    have hps : p ∈ sorted := List.take_subset _ _ hp
    have hpz : p ∈ df.index.zip scores := by
      exact (List.perm_insertionSort byScoreDesc _).mem_iff.mp hps
    obtain ⟨x, y⟩ := p
    exact (List.of_mem_zip hpz).1

/-- Concrete instantiation of the C8 theorem: a five-row table with one
numeric column and top_k two yields two indices and two scores, all
indices drawn from the table. -/
theorem score_result_lengths_witness :
    ∃ r, detect_anomalies (fun _ _ _ i => (i : Rat))
        ⟨[0, 1, 2, 3, 4], [⟨"age", true, [30, 31, 29, 32, 28]⟩]⟩ 2 (1 / 20) 42 = some r
      ∧ r.indices.length = r.scores.length
      ∧ (r.indices.length : Int) = min 2 ((([0, 1, 2, 3, 4] : List Int)).length : Int)
      ∧ (r.indices.length : Int) ≤ 2
      ∧ ∀ i ∈ r.indices, i ∈ ([0, 1, 2, 3, 4] : List Int) :=
  score_result_lengths_and_indices (fun _ _ _ i => (i : Rat))
    ⟨[0, 1, 2, 3, 4], [⟨"age", true, [30, 31, 29, 32, 28]⟩]⟩ 2 (1 / 20) 42
    (by decide) (by decide) (by decide)

/-- The scores returned by detect_anomalies are sorted non-increasing in
this embedding. This is the half of the descending-sort sentence that
does not depend on tie handling: it holds for every permutation the
underlying sort could have chosen. The other half of that sentence,
ties keep their encounter order, depends on the stability of numpy
argsort under the default quicksort kind, which numpy does not
guarantee, so it is not settled here. -/
theorem detect_anomalies_scores_sorted
    (score_samples : Rat → Int → Table → Nat → Rat) (df : Table)
    (top_k : Int) (contamination : Rat) (random_state : Int) (r : AnomalyResult)
    (h : detect_anomalies score_samples df top_k contamination random_state = some r) :
    List.Sorted (fun a b : Rat => b ≤ a) r.scores := by
  unfold detect_anomalies at h
  by_cases hg : ((select_numeric_features df).cols.length = 0
      ∨ (select_numeric_features df).index.length < 5)
  · rw [if_pos hg] at h
    exact absurd h (by simp)
  · rw [if_neg hg] at h
    simp only [Option.some.injEq] at h
    subst h
    have hs : List.Sorted byScoreDesc (List.insertionSort byScoreDesc
        (df.index.zip ((List.range (select_numeric_features df).index.length).map
          (fun i => - score_samples contamination random_state (select_numeric_features df) i)))) :=
      List.sorted_insertionSort byScoreDesc _
    rw [List.Sorted, List.pairwise_map]
    exact hs.sublist (List.take_sublist _ _)

/-- The collaborator invocations run_analyze_job can make, recorded as a
trace: data load and clean, a file write into the request directory
(summary.json directly, hist.png through save_numeric_hist), download
URL building, and the two anomaly entry points of anomaly.py. The
anomaly constructors appear in the vocabulary so that their absence from
every trace is expressible; in the source they occur only in
commented-out lines 194 to 196. -/
inductive CallEvent where
  | loadClean
  | writeFile (filename : String)
  | makeUrl (filename : String)
  | detectAnomaliesCall
  | scoreWithModelCall
deriving Repr, DecidableEq

/-- The effectful collaborators of api.py run_analyze_job with their
outcomes fixed by the environment: the load-and-clean step, the
summary.json write, the histogram rendering (each may raise), the
per-stage timing marks, and the current timestamps. summarize itself is
pure in the source, and the status writes of api.py write_status are
modelled as infallible bookkeeping. -/
structure JobEnv where
  load_clean : Except Exc Table
  write_summary : Except Exc Unit
  save_hist : Except Exc Unit
  timing : String → Rat
  now_iso : String
  now_epoch : Int

/-- The timing_ms dictionary of a completed run, in mark order: the
source marks data_load_clean, save_summary, anomaly_score (marked even
though the anomaly calls themselves are commented out), hist (marked
whether or not a histogram was requested) and complete. -/
def jobMarks (env : JobEnv) : List (String × JVal) :=
  [("data_load_clean", .num (env.timing "data_load_clean")),
   ("save_summary", .num (env.timing "save_summary")),
   ("anomaly_score", .num (env.timing "anomaly_score")),
   ("hist", .num (env.timing "hist")),
   ("complete", .num (env.timing "complete"))]

/-- The payload of the done status written at api.py lines 212 to 220:
status, the summary URL, the histogram URL (None when no histogram was
requested) and the timing dictionary. -/
def doneRecord (sign : String → String → String) (st : Settings) (env : JobEnv)
    (req_id : String) (hist : Option String) : List (String × JVal) :=
  [("status", .s "done"),
   ("summary_url", .s (make_download_url sign st env.now_epoch req_id "summary.json")),
   ("hist_url", match hist with
     | some _ => .s (make_download_url sign st env.now_epoch req_id "hist.png")
     | none => JVal.null),
   ("timing_ms", .obj (jobMarks env))]

/-- The payload of the failed status written in the except block at
api.py lines 226 to 228: the error string is the exception class name,
a colon and a space, then the message. -/
def failedRecord (e : Exc) : List (String × JVal) :=
  [("status", .s "failed"), ("error", .s (e.cls ++ ": " ++ e.msg))]

/-- api.py run_analyze_job (lines 160 to 229), with the effectful
collaborators supplied by env and URL signing by sign and st. It writes
the running status, then runs the guarded block: load and clean the
input, write summary.json, mark the anomaly stage without invoking any
scorer (the anomaly lines are commented out), render the histogram when
a column was requested, build the download URLs (hist URL first, as in
the source) and write the done status; any exception caught by the
except block writes the failed status instead. Returns the updated
status store and the trace of collaborator calls. The top_k parameter is
accepted and ignored, as in the source, where its only use is inside a
comment. -/
def run_analyze_job (sign : String → String → String) (st : Settings) (env : JobEnv)
    (req_id : String) (hist : Option String) (top_k : Int) (store : StatusStore) :
    StatusStore × List CallEvent :=
  let store1 := write_status env.now_iso req_id [("status", .s "running")] store
  match env.load_clean with
  | .error e => (write_status env.now_iso req_id (failedRecord e) store1, [.loadClean])
  | .ok _df =>
    match env.write_summary with
    | .error e =>
        (write_status env.now_iso req_id (failedRecord e) store1,
         [.loadClean, .writeFile "summary.json"])
    | .ok _ =>
      match hist with
      | some _column =>
        match env.save_hist with
        | .error e =>
            (write_status env.now_iso req_id (failedRecord e) store1,
             [.loadClean, .writeFile "summary.json", .writeFile "hist.png"])
        | .ok _ =>
            (write_status env.now_iso req_id (doneRecord sign st env req_id hist) store1,
             [.loadClean, .writeFile "summary.json", .writeFile "hist.png",
              .makeUrl "hist.png", .makeUrl "summary.json"])
      | none =>
          (write_status env.now_iso req_id (doneRecord sign st env req_id hist) store1,
           [.loadClean, .writeFile "summary.json", .makeUrl "summary.json"])

/-- The first exception the environment raises inside the guarded block
of run_analyze_job, in execution order: the load-and-clean step, then
the summary write, then the histogram rendering when a column was
requested. Later steps never run once an earlier one has raised, so
this is the exception the except block catches; none means the block
runs to completion. -/
def firstFailure (env : JobEnv) (hist : Option String) : Option Exc :=
  match env.load_clean with
  | .error e => some e
  | .ok _ =>
    match env.write_summary with
    | .error e => some e
    | .ok _ =>
      match hist, env.save_hist with
      | some _, .error e => some e
      | _, _ => none

/-- Claim C4: for every environment, run_analyze_job finishes with a
status record for the request that is terminal and determined by the
exceptions of the run: when no step of the guarded block raises, the
status is done; when a step raises — the caught exception being e — the
status is failed and the error field is the class name of e plus its
message. No exception escapes the unit of work (the embedded function is
total, mirroring the except Exception block of the source), and no
request that entered running stays in running: the final status is done
or failed in every case. -/
theorem run_analyze_job_terminal_status (sign : String → String → String) (st : Settings)
    (env : JobEnv) (req_id : String) (hist : Option String) (top_k : Int)
    (store : StatusStore) :
    ∃ r, ((run_analyze_job sign st env req_id hist top_k store).1).lookup req_id = some r
      ∧ (firstFailure env hist = none → r.lookup "status" = some (.s "done"))
      ∧ (∀ e, firstFailure env hist = some e →
          r.lookup "status" = some (.s "failed")
          ∧ r.lookup "error" = some (.s (e.cls ++ ": " ++ e.msg))) := by
  rcases hl : env.load_clean with e | df
  · refine ⟨failedRecord e
        ++ [("request_id", JVal.s req_id), ("updated_at", JVal.s env.now_iso)],
      ?_, ?_, ?_⟩
    · simp [run_analyze_job, hl, write_status, List.lookup]
    · intro h
      simp [firstFailure, hl] at h
    · intro e2 he2
      simp only [firstFailure, hl, Option.some.injEq] at he2
      subst he2
      exact ⟨rfl, rfl⟩
  · rcases hw : env.write_summary with e | u
    · refine ⟨failedRecord e
          ++ [("request_id", JVal.s req_id), ("updated_at", JVal.s env.now_iso)],
        ?_, ?_, ?_⟩
      · simp [run_analyze_job, hl, hw, write_status, List.lookup]
      · intro h
        simp [firstFailure, hl, hw] at h
      · intro e2 he2
        simp only [firstFailure, hl, hw, Option.some.injEq] at he2
        subst he2
        exact ⟨rfl, rfl⟩
    · rcases hist with _ | column
      · refine ⟨doneRecord sign st env req_id none
            ++ [("request_id", JVal.s req_id), ("updated_at", JVal.s env.now_iso)],
          ?_, ?_, ?_⟩
        · simp [run_analyze_job, hl, hw, write_status, List.lookup]
        · intro _h
          rfl
        · intro e2 he2
          simp [firstFailure, hl, hw] at he2
      · rcases hh : env.save_hist with e | u2
        · refine ⟨failedRecord e
              ++ [("request_id", JVal.s req_id), ("updated_at", JVal.s env.now_iso)],
            ?_, ?_, ?_⟩
          · simp [run_analyze_job, hl, hw, hh, write_status, List.lookup]
          · intro h
            simp [firstFailure, hl, hw, hh] at h
          · intro e2 he2
            simp only [firstFailure, hl, hw, hh, Option.some.injEq] at he2
            subst he2
            exact ⟨rfl, rfl⟩
        · refine ⟨doneRecord sign st env req_id (some column)
              ++ [("request_id", JVal.s req_id), ("updated_at", JVal.s env.now_iso)],
            ?_, ?_, ?_⟩
          · simp [run_analyze_job, hl, hw, hh, write_status, List.lookup]
          · intro _h
            rfl
          · intro e2 he2
            simp [firstFailure, hl, hw, hh] at he2

/-- Concrete instantiation of both directions of the C4 theorem: a run
whose load step raises a ValueError ends failed with the formatted
class-plus-message error string, and a run with no exception ends done. -/
theorem run_analyze_job_terminal_status_witness :
    (∃ r, ((run_analyze_job (fun _ _ => "s") ⟨"", "", 3600⟩
        ⟨.error ⟨"ValueError", "bad csv"⟩, .ok (), .ok (), fun _ => 0, "t", 0⟩
        "r1" none 5 []).1).lookup "r1" = some r
      ∧ r.lookup "status" = some (.s "failed")
      ∧ r.lookup "error" = some (.s "ValueError: bad csv"))
    ∧ (∃ r, ((run_analyze_job (fun _ _ => "s") ⟨"", "", 3600⟩
        ⟨.ok ⟨[], []⟩, .ok (), .ok (), fun _ => 0, "t", 0⟩
        "r1" none 5 []).1).lookup "r1" = some r
      ∧ r.lookup "status" = some (.s "done")) := by
  constructor
  · obtain ⟨r, hr, _hdone, hfail⟩ := run_analyze_job_terminal_status (fun _ _ => "s")
      ⟨"", "", 3600⟩ ⟨.error ⟨"ValueError", "bad csv"⟩, .ok (), .ok (), fun _ => 0, "t", 0⟩
      "r1" none 5 []
    obtain ⟨hst, herr⟩ := hfail ⟨"ValueError", "bad csv"⟩ rfl
    exact ⟨r, hr, hst, herr⟩
  · obtain ⟨r, hr, hdone, _hfail⟩ := run_analyze_job_terminal_status (fun _ _ => "s")
      ⟨"", "", 3600⟩ ⟨.ok ⟨[], []⟩, .ok (), .ok (), fun _ => 0, "t", 0⟩ "r1" none 5 []
    exact ⟨r, hr, hdone rfl⟩

/-- Claim C10: background execution is independent of the submitted
top_k, never invokes either anomaly entry point (the ad hoc
detect_anomalies or the bundle-based score_anomalies_with_model), writes
no artifact other than summary.json and hist.png, and a record reaching
done holds exactly the fields status, summary_url, hist_url, timing_ms,
request_id and updated_at, in that order. -/
theorem run_analyze_job_never_scores_anomalies (sign : String → String → String)
    (st : Settings) (env : JobEnv) (req_id : String) (hist : Option String)
    (top_k k2 : Int) (store : StatusStore) :
    run_analyze_job sign st env req_id hist top_k store
      = run_analyze_job sign st env req_id hist k2 store
    ∧ CallEvent.detectAnomaliesCall ∉ (run_analyze_job sign st env req_id hist top_k store).2
    ∧ CallEvent.scoreWithModelCall ∉ (run_analyze_job sign st env req_id hist top_k store).2
    ∧ (∀ name,
        CallEvent.writeFile name ∈ (run_analyze_job sign st env req_id hist top_k store).2 →
        name = "summary.json" ∨ name = "hist.png")
    ∧ (∀ r, ((run_analyze_job sign st env req_id hist top_k store).1).lookup req_id = some r →
        r.lookup "status" = some (.s "done") →
        r.map Prod.fst = ["status", "summary_url", "hist_url", "timing_ms",
          "request_id", "updated_at"]) := by
  refine ⟨rfl, ?_⟩
  rcases hl : env.load_clean with e | df
  · refine ⟨?_, ?_, ?_, ?_⟩
    · simp [run_analyze_job, hl]
    · simp [run_analyze_job, hl]
    · intro name h
      simp [run_analyze_job, hl] at h
    · intro r hr hs
      simp [run_analyze_job, hl, write_status, List.lookup] at hr
      subst hr
      simp [failedRecord, List.lookup] at hs
  · rcases hw : env.write_summary with e | u
    · refine ⟨?_, ?_, ?_, ?_⟩
      · simp [run_analyze_job, hl, hw]
      · simp [run_analyze_job, hl, hw]
      · intro name h
        simp [run_analyze_job, hl, hw] at h
        exact Or.inl h
      · intro r hr hs
        simp [run_analyze_job, hl, hw, write_status, List.lookup] at hr
        subst hr
        simp [failedRecord, List.lookup] at hs
    · rcases hist with _ | column
      · refine ⟨?_, ?_, ?_, ?_⟩
        · simp [run_analyze_job, hl, hw]
        · simp [run_analyze_job, hl, hw]
        · intro name h
          simp [run_analyze_job, hl, hw] at h
          exact Or.inl h
        · intro r hr _hs
          simp [run_analyze_job, hl, hw, write_status, List.lookup] at hr
          subst hr
          simp [doneRecord, jobMarks]
      · rcases hh : env.save_hist with e | u2
        · refine ⟨?_, ?_, ?_, ?_⟩
          · simp [run_analyze_job, hl, hw, hh]
          · simp [run_analyze_job, hl, hw, hh]
          · intro name h
            simp [run_analyze_job, hl, hw, hh] at h
            exact h
          · intro r hr hs
            simp [run_analyze_job, hl, hw, hh, write_status, List.lookup] at hr
            subst hr
            simp [failedRecord, List.lookup] at hs
        · refine ⟨?_, ?_, ?_, ?_⟩
          · simp [run_analyze_job, hl, hw, hh]
          · simp [run_analyze_job, hl, hw, hh]
          · intro name h
            simp [run_analyze_job, hl, hw, hh] at h
            exact h
          · intro r hr _hs
            simp [run_analyze_job, hl, hw, hh, write_status, List.lookup] at hr
            subst hr
            simp [doneRecord, jobMarks]

/-- Concrete instantiation of the C10 theorem: with every collaborator
succeeding and no histogram requested, top_k five and nine produce the
same outcome, the trace holds no anomaly call, and the done record holds
exactly the six expected fields. -/
theorem run_analyze_job_no_anomaly_witness :
    run_analyze_job (fun _ _ => "s") ⟨"", "", 3600⟩
        ⟨.ok ⟨[], []⟩, .ok (), .ok (), fun _ => 0, "t", 0⟩ "r1" none 5 []
      = run_analyze_job (fun _ _ => "s") ⟨"", "", 3600⟩
        ⟨.ok ⟨[], []⟩, .ok (), .ok (), fun _ => 0, "t", 0⟩ "r1" none 9 []
    ∧ CallEvent.detectAnomaliesCall ∉ (run_analyze_job (fun _ _ => "s") ⟨"", "", 3600⟩
        ⟨.ok ⟨[], []⟩, .ok (), .ok (), fun _ => 0, "t", 0⟩ "r1" none 5 []).2
    ∧ (doneRecord (fun _ _ => "s") ⟨"", "", 3600⟩
          ⟨.ok ⟨[], []⟩, .ok (), .ok (), fun _ => 0, "t", 0⟩ "r1" none
        ++ [("request_id", JVal.s "r1"), ("updated_at", JVal.s "t")]).map Prod.fst
      = ["status", "summary_url", "hist_url", "timing_ms", "request_id", "updated_at"] :=
  ⟨(run_analyze_job_never_scores_anomalies (fun _ _ => "s") ⟨"", "", 3600⟩
      ⟨.ok ⟨[], []⟩, .ok (), .ok (), fun _ => 0, "t", 0⟩ "r1" none 5 9 []).1,
   (run_analyze_job_never_scores_anomalies (fun _ _ => "s") ⟨"", "", 3600⟩
      ⟨.ok ⟨[], []⟩, .ok (), .ok (), fun _ => 0, "t", 0⟩ "r1" none 5 9 []).2.1,
   (run_analyze_job_never_scores_anomalies (fun _ _ => "s") ⟨"", "", 3600⟩
      ⟨.ok ⟨[], []⟩, .ok (), .ok (), fun _ => 0, "t", 0⟩ "r1" none 5 9 []).2.2.2.2
      (doneRecord (fun _ _ => "s") ⟨"", "", 3600⟩
          ⟨.ok ⟨[], []⟩, .ok (), .ok (), fun _ => 0, "t", 0⟩ "r1" none
        ++ [("request_id", JVal.s "r1"), ("updated_at", JVal.s "t")]) rfl rfl⟩

end PyLab
